import Mathlib

/-!
Verification of the chunked object-transport core of DiscordSlicer.

The development shallowly embeds the Python source under `src/`:

* `UploadService.split_file` / `UploadService.upload_files`   (src/handlers/upload_file.py)
* `DownloadService.merge_files`, `DownloadService.download_files`,
  `DownloadService.convert_to_bytes`                          (src/handlers/download_file.py)
* `SearchService.get_file_channel_id`                         (src/handlers/search_file.py)
* `DeleteService.delete_file` button callbacks                (src/handlers/delete_file.py)
* `LocalDBManager` / `CloudDBManager` operations              (src/handlers/database_handler.py)

Files are byte lists, the SQLite store is a list of rows, the Mongo collection a
list of documents, and Discord side effects are reified as explicit event lists.
Wall-clock progress/ETA arithmetic and the embed texts built from it are
display-only in the source and are not part of the embedded state except where a
claim is about them.
-/

/-! ## Python string helpers used by the handlers -/

/-- `str.isdigit()` restricted to ASCII: non-empty and all characters `'0'..'9'`
(the tokens this program receives are ASCII; `Char.isDigit` is exactly `'0'..'9'`). -/
def pyIsdigit (s : String) : Bool :=
  !s.data.isEmpty && s.data.all Char.isDigit

/-- Decimal value of a digit string, as `int(...)` produces on `isdigit` input and
as SQLite's numeric affinity converts a digit string compared against an
`Integer` column. -/
def digitsVal (cs : List Char) : Nat :=
  cs.foldl (fun acc c => acc * 10 + (c.toNat - 48)) 0

/-- Decimal value of a digit `String`. -/
def strVal (s : String) : Nat :=
  digitsVal s.data

/-- `os.path.basename` on POSIX: the portion after the last `'/'`. -/
def pyBasename (s : String) : String :=
  String.mk (s.data.foldl (fun acc c => if c = '/' then [] else acc ++ [c]) [])

/-- The root component of `os.path.splitext` applied to a basename (no slashes):
cut at the last `'.'`, except when every character before that dot is itself a
dot (a leading-dots name such as `".bashrc"` has no extension). -/
def splitextRoot (s : String) : String :=
  let cs := s.data
  match cs.reverse.findIdx? (· = '.') with
  | none => s
  | some k =>
      let dotIdx := cs.length - 1 - k
      if (cs.take dotIdx).any (· ≠ '.') then String.mk (cs.take dotIdx) else s

/-- The token normalisation in `SearchService.get_file_channel_id` lines 85-86:
`basename = os.path.basename(file)` then `basename = os.path.splitext(basename)[0]`. -/
def stripToken (s : String) : String :=
  splitextRoot (pyBasename s)

/-- `s.endswith(t)` for ASCII strings: `t` is a suffix of `s`. -/
def pyEndsWith (s t : String) : Bool :=
  s.data.reverse.take t.data.length == t.data.reverse

/-- The slice `s[:-n]` (for `n ≤ len(s)`; empty otherwise). -/
def pyDropRight (s : String) (n : Nat) : String :=
  String.mk (s.data.take (s.data.length - n))

/-- `x.split('_')[-1]`: the characters after the last underscore (the whole
string when there is no underscore). -/
def afterLastUnderscore (cs : List Char) : List Char :=
  cs.foldl (fun acc c => if c = '_' then [] else acc ++ [c]) []

/-- The sort key of `merge_files`: `int(x.split("_")[-1])` — the integer suffix
after the final underscore of a part filename. -/
def partSuffix (s : String) : Nat :=
  digitsVal (afterLastUnderscore s.data)

/-! ## Data model

`SavedFile` mirrors the `saved_files` table (src/local_db/saved_files.py): columns
`file_id` (the logical object id), `user_id`, `channel_id`, `file_name`,
`file_size` (a human-readable string), `file_type`, `num_files`.  The surrogate
primary key is the list position.  `num_files` is `Option`al: the
`LocalDBManager.insert_file` of this revision never sets it. -/

structure SavedFile where
  file_id : Nat
  user_id : Nat
  channel_id : Nat
  file_name : String
  file_size : String
  file_type : String
  num_files : Option Nat
deriving DecidableEq

/-- A document of the Mongo `file_list` collection, with the fields
`CloudDBManager.insert_file` stores. -/
structure CloudDoc where
  user_id : Nat
  channel_id : Nat
  file_id : Nat
  file_name : String
  file_size : String
  file_type : String
deriving DecidableEq

/-- A text channel of the `UPLOAD` category, as seen by
`discord.utils.get(category.channels, ...)`. -/
structure GuildChannel where
  id : Nat
  name : String
deriving DecidableEq

/-- Python exception kinds the embedded fragments can raise. -/
inductive PyError where
  | attributeError
  | valueError
deriving DecidableEq

instance {ε α : Type} [DecidableEq ε] [DecidableEq α] : DecidableEq (Except ε α)
  | Except.ok a, Except.ok b =>
      if h : a = b then isTrue (by rw [h])
      else isFalse (by intro hc; cases hc; exact h rfl)
  | Except.error a, Except.error b =>
      if h : a = b then isTrue (by rw [h])
      else isFalse (by intro hc; cases hc; exact h rfl)
  | Except.ok _, Except.error _ => isFalse (by intro hc; cases hc)
  | Except.error _, Except.ok _ => isFalse (by intro hc; cases hc)

/-! ## LocalDBManager (src/handlers/database_handler.py lines 251-428)

The SQLite store is a `List SavedFile`; `session.query(...).first()` is
`List.find?`, `session.add` + `commit` appends a row (the ORM/SQL layer is the
storage backend, outside the embedded core). -/

namespace LocalDBManager

/-- `LocalDBManager.insert_file` lines 280-308: the new `file_id` is
`session.query(func.max(SavedFile.file_id)).scalar() or 0` plus one; the row is
then added.  `num_files` is not among the constructor arguments in this
revision, so it is stored unset. -/
def insert_file (db : List SavedFile) (user_id channel_id : Nat)
    (file_name file_size file_type : String) : List SavedFile :=
  let max_file_id := (db.map (·.file_id)).foldl max 0
  let file_id := max_file_id + 1
  db ++ [{ file_id := file_id, user_id := user_id, channel_id := channel_id,
           file_name := file_name, file_size := file_size, file_type := file_type,
           num_files := none }]

/-- `LocalDBManager.delete_by_channel_id` lines 323-343: fetch the first row with
this `channel_id`; if present delete it and return `True`, else return `False`. -/
def delete_by_channel_id (db : List SavedFile) (channel_id : Nat) :
    Bool × List SavedFile :=
  match db.find? (fun f => f.channel_id == channel_id) with
  | some _ => (true, db.eraseP (fun f => f.channel_id == channel_id))
  | none => (false, db)

/-- `LocalDBManager.find_by(file_id=...)` (lines 345-370): first matching row's
`channel_id`, `None` otherwise.  The handler passes the digit token itself;
SQLite's numeric affinity compares it as the integer `strVal` yields. -/
def find_by_id (db : List SavedFile) (file_id : Nat) : Option Nat :=
  (db.find? (fun f => f.file_id == file_id)).map (·.channel_id)

/-- `LocalDBManager.find_by(file_name=...)` (lines 373-383). -/
def find_by_filename (db : List SavedFile) (filename : String) : Option Nat :=
  (db.find? (fun f => f.file_name == filename)).map (·.channel_id)

/-- `LocalDBManager.find_by(channel_id=...)` (lines 386-396). -/
def find_by_channel_id (db : List SavedFile) (channel_id : Nat) : Option Nat :=
  (db.find? (fun f => f.channel_id == channel_id)).map (·.channel_id)

/-- `LocalDBManager.find_name_by_channel_id` lines 399-412: the matching row's
`file_name`, or the string `"No file found"`. -/
def find_name_by_channel_id (db : List SavedFile) (channel_id : Nat) : String :=
  match db.find? (fun f => f.channel_id == channel_id) with
  | some f => f.file_name
  | none => "No file found"

/-- `LocalDBManager.find_fullname_by_channel_id` lines 415-428. -/
def find_fullname_by_channel_id (db : List SavedFile) (channel_id : Nat) : String :=
  match db.find? (fun f => f.channel_id == channel_id) with
  | some f => f.file_name ++ "." ++ f.file_type
  | none => "No file found"

end LocalDBManager

/-! ## CloudDBManager (src/handlers/database_handler.py lines 431-592)

The collection is a `List CloudDoc`; the `counters` document holds one `Nat`.
`find_one` is `List.find?`. -/

namespace CloudDBManager

/-- `CloudDBManager.insert_file` lines 448-477: atomically increment the shared
counter (`$inc` with `upsert`, returning the post-increment value) and insert a
document carrying that value as `file_id`.  Returns the new counter and collection. -/
def insert_file (counter : Nat) (coll : List CloudDoc) (user_id channel_id : Nat)
    (file_name file_size file_type : String) : Nat × List CloudDoc :=
  let counter' := counter + 1
  (counter', coll ++ [{ user_id := user_id, channel_id := channel_id,
                        file_id := counter', file_name := file_name,
                        file_size := file_size, file_type := file_type }])

/-- `CloudDBManager.delete_by_channel_id` lines 493-508: `delete_one` removes the
first matching document; returns whether `deleted_count == 1`. -/
def delete_by_channel_id (coll : List CloudDoc) (channel_id : Nat) :
    Bool × List CloudDoc :=
  match coll.find? (fun d => d.channel_id == channel_id) with
  | some _ => (true, coll.eraseP (fun d => d.channel_id == channel_id))
  | none => (false, coll)

/-- `CloudDBManager.find_by(file_id=int(file_id))` (lines 510-533). -/
def find_by_id (coll : List CloudDoc) (file_id : Nat) : Option Nat :=
  (coll.find? (fun d => d.file_id == file_id)).map (·.channel_id)

/-- `CloudDBManager.find_by(file_name=...)` (lines 535-545). -/
def find_by_filename (coll : List CloudDoc) (filename : String) : Option Nat :=
  (coll.find? (fun d => d.file_name == filename)).map (·.channel_id)

/-- `CloudDBManager.find_by(channel_id=int(channel_id))` (lines 547-558). -/
def find_by_channel_id (coll : List CloudDoc) (channel_id : Nat) : Option Nat :=
  (coll.find? (fun d => d.channel_id == channel_id)).map (·.channel_id)

/-- `CloudDBManager.find_name_by_channel_id` lines 560-572:
`result = find_one(...)`; then `result.get("file_name", "No file found")`.
When no document matches, `find_one` returns `None` and `None.get(...)` raises
`AttributeError`; when one matches, the projected field is present and is
returned (the `.get` default is unreachable). -/
def find_name_by_channel_id (coll : List CloudDoc) (channel_id : Nat) :
    Except PyError String :=
  match coll.find? (fun d => d.channel_id == channel_id) with
  | some d => Except.ok d.file_name
  | none => Except.error PyError.attributeError

/-- `CloudDBManager.find_fullname_by_channel_id` lines 574-591: same shape; on a
match it returns `file_name + '.' + file_type`, on a miss `result.get` raises
`AttributeError`. -/
def find_fullname_by_channel_id (coll : List CloudDoc) (channel_id : Nat) :
    Except PyError String :=
  match coll.find? (fun d => d.channel_id == channel_id) with
  | some d => Except.ok (d.file_name ++ "." ++ d.file_type)
  | none => Except.error PyError.attributeError

end CloudDBManager

/-! ## SearchService (src/handlers/search_file.py) -/

namespace SearchService

/-- `SearchService.get_file_channel_id` lines 62-99, resolving a token to a
channel id against the local backend (`HybridDBhandler` with
`use_cloud_database = false`; the cloud lookups have the same find-first
semantics).  `category` is the `UPLOAD` category's channel list, `none` when the
category does not exist yet — the code then creates it empty, so the
channel-name step cannot match.  Steps, first hit returned:
1. if `file.isdigit()`: `find_by_id`;
2. `find_by_filename` on the basename with the extension stripped;
3. `discord.utils.get(category.channels, name=file)` and, when a channel is
   found, `find_by_channel_id(channel.id)` to confirm a record exists;
otherwise the function falls through and returns `None`. -/
def get_file_channel_id (db : List SavedFile) (category : Option (List GuildChannel))
    (file : String) : Option Nat :=
  match (if pyIsdigit file then LocalDBManager.find_by_id db (strVal file) else none) with
  | some cid => some cid
  | none =>
      match LocalDBManager.find_by_filename db (stripToken file) with
      | some cid => some cid
      | none =>
          match (category.getD []).find? (fun ch => ch.name == file) with
          | some ch => LocalDBManager.find_by_channel_id db ch.id
          | none => none

/-- The value of step 3 alone (channel-name lookup confirmed against the index). -/
def channelNameStep (db : List SavedFile) (category : Option (List GuildChannel))
    (file : String) : Option Nat :=
  match (category.getD []).find? (fun ch => ch.name == file) with
  | some ch => LocalDBManager.find_by_channel_id db ch.id
  | none => none

end SearchService

/-! ## UploadService (src/handlers/upload_file.py) -/

namespace UploadService

/-- Number of chunks computed by `split_file` (lines 108-110):
`num_chunks = file_size // chunk_size` plus one when `file_size % chunk_size != 0`. -/
def numChunks (fileSize chunkSize : Nat) : Nat :=
  fileSize / chunkSize + (if fileSize % chunkSize ≠ 0 then 1 else 0)

/-- The data written to part `i`: `split_file` reads the file sequentially in
`chunk_size` blocks, so the `i`-th `file_handle.read(self.chunk_size)` returns
bytes `[i*chunk_size, i*chunk_size + chunk_size)` of the file (short at the end). -/
def chunkData (data : List α) (chunkSize i : Nat) : List α :=
  (data.drop (i * chunkSize)).take chunkSize

/-- `UploadService.split_file` lines 92-130.  Returns the part files created (as
suffix/content pairs: part `i` is the file named `{filename}_{i}`), the counter
`chunks_saved`, and the returned boolean `chunks_saved == num_chunks`.
`writeOk i` models the `try`/`except IOError` around `chunk_file.write`: a
failing write leaves the part file created by `open(..., 'wb')` but empty, and
is not counted in `chunks_saved`. -/
def split_file (data : List α) (chunkSize : Nat) (writeOk : Nat → Bool) :
    List (Nat × List α) × Nat × Bool :=
  let n := numChunks data.length chunkSize
  ((List.range n).map fun i => (i, if writeOk i then chunkData data chunkSize i else []),
   ((List.range n).filter writeOk).length,
   ((List.range n).filter writeOk).length == n)

/-- Python's `bool` is an `int`: `True == 1`, `False == 0`.  Used to read the
boolean `split_file` returns as a number. -/
def pyBoolToNat (b : Bool) : Nat :=
  if b then 1 else 0

/-- `re.sub(r'[^a-zA-Z0-9_-]', '', file_name)` followed by `.lower()`
(lines 150-151): keep ASCII letters, digits, `'_'` and `'-'`, then lowercase. -/
def normalizeChannelName (s : String) : String :=
  String.mk ((s.data.filter fun c =>
    c.isAlpha || c.isDigit || c = '_' || c = '-').map Char.toLower)

/-- The Discord side effects of `upload_files`, in program order. -/
inductive UpEvent where
  /-- `ctx.guild.create_category(self.category_name)` (line 148). -/
  | createCategory
  /-- `category.create_text_channel(channel_name)` (line 156). -/
  | createChannel (name : String)
  /-- the progress-embed edit at the top of the loop body (lines 185-191),
  carrying the counters it displays. -/
  | progressEdit (upload_counter upload_size : Nat)
  /-- `text_channel.send(file=discord_file)` for the part file of this name
  (line 198). -/
  | sendPart (filename : String)
  /-- the `dbhandler.insert_file(user_id, channel_id, file_name, size, type,
  total_files)` call (lines 217-219).  (In this revision the handler's
  signature has one parameter fewer than this call site passes.) -/
  | insertRecord (file_name : String) (total_files : Nat)
deriving DecidableEq

/-- Result of `upload_files`: `True`, or the `False` return of the
`"File already exists"` branch (lines 157-162). -/
inductive UploadResult where
  | ok
  | fileAlreadyExists
deriving DecidableEq

/-- The `for file in files:` loop of `upload_files` (lines 183-209): for each
listed file, edit the progress embed (showing the counters before this part),
then send the part; `upload_size` grows by the part's size and
`upload_counter` by one.  The speed/ETA values are wall-clock derived and feed
only the next embed text. -/
def upload_loop (sizes : String → Nat) :
    List String → Nat → Nat → List UpEvent
  | [], _, _ => []
  | f :: rest, upload_counter, upload_size =>
      UpEvent.progressEdit upload_counter upload_size :: UpEvent.sendPart f ::
        upload_loop sizes rest (upload_counter + 1) (upload_size + sizes f)

/-- `UploadService.upload_files` lines 132-229 (Discord-effect skeleton).
`categoryChannels` is `none` when the `UPLOAD` category does not exist (it is
then created, with no channels); otherwise the names of its channels.
`listing` is `os.listdir('files/upload/{file_name}')` — the part files in the
arbitrary order the OS returns.  If a channel already carries the normalised
name, the function stops with the `"File already exists"` embed and `False`
before creating a channel, sending a part, or touching the database; otherwise
it creates the channel, transmits the listed files in listing order and inserts
the metadata record. -/
def upload_files (categoryChannels : Option (List String)) (sizes : String → Nat)
    (listing : List String) (file_name : String) : UploadResult × List UpEvent :=
  let catEvents : List UpEvent :=
    match categoryChannels with
    | some _ => []
    | none => [UpEvent.createCategory]
  let chans := categoryChannels.getD []
  let channel_name := normalizeChannelName file_name
  if chans.contains channel_name then
    (UploadResult.fileAlreadyExists, catEvents)
  else
    (UploadResult.ok,
     catEvents ++ UpEvent.createChannel channel_name ::
       (upload_loop sizes listing 0 0 ++
         [UpEvent.insertRecord file_name listing.length]))

/-- The part filenames sent, in order of transmission. -/
def sentParts : List UpEvent → List String
  | [] => []
  | UpEvent.sendPart f :: rest => f :: sentParts rest
  | _ :: rest => sentParts rest

end UploadService

/-! ## DownloadService (src/handlers/download_file.py) -/

namespace DownloadService

/-- The sort in `DownloadService.merge_files` line 193:
`sorted(os.listdir(download_dir), key=lambda x: int(x.split("_")[-1]))` — part
files ordered by the integer suffix after the final underscore (here the first
pair component).  Python's `sorted` is a stable ascending sort. -/
def sortParts (parts : List (Nat × List α)) : List (Nat × List α) :=
  List.insertionSort (fun a b => a.1 ≤ b.1) parts

/-- The concatenation performed by the `merge_files` write loop (lines 205-209):
the contents of the part files in ascending suffix order, one after another. -/
def mergeConcat (parts : List (Nat × List α)) : List α :=
  ((sortParts parts).map Prod.snd).flatten

/-- CPython `float(str)` on the plain decimal fragment: optional surrounding
spaces, optional sign, digits with at most one decimal point and at least one
digit somewhere; anything else (letters, interior spaces) raises `ValueError`
(`none` here).  The exponent/`inf`/`nan` forms never occur in this program's
size labels and are left out. -/
def parsePyFloat (s : String) : Option ℚ :=
  let cs := s.data.dropWhile (· = ' ')
  let cs := (cs.reverse.dropWhile (· = ' ')).reverse
  let signAndRest : ℚ × List Char :=
    match cs with
    | '-' :: rest => (-1, rest)
    | '+' :: rest => (1, rest)
    | _ => (1, cs)
  let intPart := signAndRest.2.takeWhile Char.isDigit
  let rest := signAndRest.2.dropWhile Char.isDigit
  match rest with
  | [] =>
      if intPart.isEmpty then none
      else some (signAndRest.1 * (digitsVal intPart : ℚ))
  | '.' :: frac =>
      if frac.all Char.isDigit && !(intPart.isEmpty && frac.isEmpty) then
        some (signAndRest.1 *
          ((digitsVal intPart : ℚ) + (digitsVal frac : ℚ) / (10 : ℚ) ^ frac.length))
      else none
  | _ => none

/-- `int(...)` applied to the nonnegative float values arising here: truncation,
which agrees with the floor on nonnegative arguments. -/
def pyInt (q : ℚ) : Int :=
  ⌊q⌋

/-- `DownloadService.convert_to_bytes` lines 249-265: strip a trailing `"GB"` or
`"MB"` and scale the float value of the remainder; any other label is passed to
`float(...)` whole — so a label such as `"16.00 KB"` or `"512 bytes"` (both
shapes `convert_size` produces) raises `ValueError`. -/
def convert_to_bytes (size_str : String) : Except PyError Int :=
  if pyEndsWith size_str "GB" then
    match parsePyFloat (pyDropRight size_str 2) with
    | some q => Except.ok (pyInt (q * 1024 ^ 3))
    | none => Except.error PyError.valueError
  else if pyEndsWith size_str "MB" then
    match parsePyFloat (pyDropRight size_str 2) with
    | some q => Except.ok (pyInt (q * 1024 ^ 2))
    | none => Except.error PyError.valueError
  else
    match parsePyFloat size_str with
    | some q => Except.ok (pyInt q)
    | none => Except.error PyError.valueError

/-- A message of the channel history with its attachments
(filename, payload). -/
structure PyMessage where
  attachments : List (String × List Nat)
deriving DecidableEq

/-- `DownloadService.download_files` lines 79-172, data part.  The record
argument stands for `self.db_handler.get_file_by_channelid(channel_id)` (the
stored `ObjectRecord`).  Before the history loop the code evaluates
`bytefilesize = self.convert_to_bytes(file["file_size"])` (line 131); a
`ValueError` there propagates and nothing is downloaded.  Otherwise every
attachment of the history, iterated oldest first, is saved under its original
filename into the per-channel directory; `bytefilesize`, the speeds and ETAs
feed only the progress-embed text. -/
def download_files (file : SavedFile) (history : List PyMessage) :
    Except PyError (List (String × List Nat)) :=
  match convert_to_bytes file.file_size with
  | Except.error e => Except.error e
  | Except.ok _ => Except.ok ((history.map (·.attachments)).flatten)

/-- Observable outcome of `merge_files` lines 174-222. -/
structure MergeOutcome where
  /-- the returned boolean -/
  result : Bool
  /-- content of the destination file in `~/Downloads`, fully written;
  `none` when the write failed -/
  output : Option (List Nat)
  /-- whether `shutil.rmtree` removed the per-channel download directory
  (line 220) -/
  dirRemoved : Bool
  /-- whether the `except OSError` branch (lines 210-213) ran,
  logging the merge error -/
  errorLogged : Bool
  /-- whether the `"Finished Download"` embed (lines 216-218) was shown -/
  finishedShown : Bool
deriving DecidableEq

/-- `DownloadService.merge_files` lines 174-222.  `osError` tells whether the
output write raises `OSError` (disk full, permission denied).  With no parts
the function returns `False` early.  Otherwise: on `OSError` the `except`
branch logs the error — and, the handler not returning, control falls through
to the success logging, the `"Finished Download"` embed, the `rmtree` of the
part directory, and `return True`.  Without an error the parts are concatenated
in ascending-suffix order into the destination file. -/
def merge_files (parts : List (Nat × List Nat)) (osError : Bool) : MergeOutcome :=
  let input_files := sortParts parts
  if input_files.isEmpty then
    { result := false, output := none, dirRemoved := false,
      errorLogged := false, finishedShown := false }
  else if osError then
    { result := true, output := none, dirRemoved := true,
      errorLogged := true, finishedShown := true }
  else
    { result := true, output := some (mergeConcat parts), dirRemoved := true,
      errorLogged := false, finishedShown := true }

end DownloadService

/-! ## DeleteService (src/handlers/delete_file.py) -/

namespace DeleteService

/-- The destructive side effects of the deletion workflow, in program order. -/
inductive DelEvent where
  /-- `channel.delete()` (line 73) -/
  | channelDelete (channel_id : Nat)
  /-- `db_handler.delete_by_channel_id(channel_id)` (line 74) -/
  | dbDelete (channel_id : Nat)
deriving DecidableEq

/-- Outcome of a button callback of `DeleteService.delete_file`. -/
structure DeleteOutcome where
  /-- destructive calls performed, in order -/
  events : List DelEvent
  /-- whether the green `"Successfully deleted ..."` embed was shown (`result`
  truthy); the red `"No file with channel_id=... found"` embed otherwise -/
  success : Bool
  /-- live channel ids afterwards -/
  channels : List Nat
  /-- the metadata store afterwards -/
  db : List SavedFile
deriving DecidableEq

/-- The `okbtn_callback` of `DeleteService.delete_file` (lines 61-85): fetch and
delete the channel, then `delete_by_channel_id`; report success exactly when
the database deletion reported a removed record. -/
def okbtn_callback (channels : List Nat) (db : List SavedFile) (channel_id : Nat) :
    DeleteOutcome :=
  let channels' := channels.erase channel_id
  let r := LocalDBManager.delete_by_channel_id db channel_id
  { events := [DelEvent.channelDelete channel_id, DelEvent.dbDelete channel_id],
    success := r.1, channels := channels', db := r.2 }

/-- The `cancelbtn_callback` (lines 87-101): only the `"Canceled deletion"`
embed is shown; nothing is deleted. -/
def cancelbtn_callback (channels : List Nat) (db : List SavedFile) : DeleteOutcome :=
  { events := [], success := false, channels := channels, db := db }

end DeleteService

/-! ## Concrete instances used by witnesses and counterexamples -/

/-- Records for the resolver-precedence instance: `file_id = 7` with
`base_name "report"` on channel 500, and a second record whose channel 600 is
literally named `"7"` — so the channel-name step alone would resolve `"7"`
to 600. -/
def demoDB : List SavedFile :=
  [{ file_id := 7, user_id := 1, channel_id := 500, file_name := "report",
     file_size := "16.00 MB", file_type := "txt", num_files := none },
   { file_id := 8, user_id := 1, channel_id := 600, file_name := "7",
     file_size := "16.00 MB", file_type := "txt", num_files := none }]

/-- The `UPLOAD` category channels for the resolver instance. -/
def demoChannels : List GuildChannel :=
  [{ id := 500, name := "report" }, { id := 600, name := "7" }]

/-- A record whose size label parses in `convert_to_bytes`. -/
def demoRecMB : SavedFile :=
  { file_id := 1, user_id := 1, channel_id := 500, file_name := "report",
    file_size := "16.00 MB", file_type := "txt", num_files := some 1 }

/-- The same record with the size label `convert_size` produces for a
16384-byte file. -/
def demoRecKB : SavedFile :=
  { demoRecMB with file_size := "16.00 KB" }

/-- A one-message, one-attachment channel history. -/
def demoHistory : List DownloadService.PyMessage :=
  [{ attachments := [("report_0", [1, 2, 3])] }]

/-- Object-id reuse scenario, step 1: insert into an empty local store. -/
def reuseDB1 : List SavedFile :=
  LocalDBManager.insert_file [] 1 500 "a" "1.00 KB" "txt"

/-- Step 2: second insert. -/
def reuseDB2 : List SavedFile :=
  LocalDBManager.insert_file reuseDB1 1 600 "b" "1.00 KB" "txt"

/-- Step 3: delete the record holding the largest `file_id`. -/
def reuseDB3 : List SavedFile :=
  (LocalDBManager.delete_by_channel_id reuseDB2 600).2

/-- Step 4: insert again. -/
def reuseDB4 : List SavedFile :=
  LocalDBManager.insert_file reuseDB3 1 700 "c" "1.00 KB" "txt"

/-! ## Helper lemmas -/

/-- `num_chunks * chunk_size` covers the whole file. -/
theorem numChunks_mul_ge (n C : Nat) (hC : 0 < C) :
    n ≤ UploadService.numChunks n C * C := by
  have h3 : n / C * C + n % C = n := Nat.div_add_mod' n C
  have h2 : n % C < C := Nat.mod_lt n hC
  unfold UploadService.numChunks
  by_cases h : n % C = 0
  · simp only [h, ne_eq, not_true_eq_false, if_false, Nat.add_zero]
    omega
  · simp only [h, ne_eq, not_false_eq_true, if_true]
    have h4 : (n / C + 1) * C = n / C * C + C := by ring
    omega

/-- `num_chunks` is the ceiling of `file_size / chunk_size`. -/
theorem numChunks_eq_ceil (n C : Nat) (hC : 0 < C) :
    UploadService.numChunks n C = (n + C - 1) / C := by
  obtain ⟨q, r, hrC, rfl⟩ : ∃ q r, r < C ∧ n = C * q + r :=
    ⟨n / C, n % C, Nat.mod_lt n hC, (Nat.div_add_mod n C).symm⟩
  unfold UploadService.numChunks
  have hmod : (C * q + r) % C = r % C := Nat.mul_add_mod C q r
  have hdiv : (C * q + r) / C = q + r / C := Nat.mul_add_div hC q r
  have hr0 : r / C = 0 := Nat.div_eq_of_lt hrC
  by_cases h : r = 0
  · subst h
    have e1 : C * q + 0 + C - 1 = C * q + (C - 1) := by omega
    rw [e1, hmod, hdiv, Nat.mul_add_div hC q (C - 1),
        Nat.div_eq_of_lt (by omega : C - 1 < C)]
    simp [hr0, Nat.mod_eq_of_lt hrC]
  · have e1 : C * q + r + C - 1 = C * (q + 1) + (r - 1) := by
      rw [Nat.mul_succ]; omega
    rw [e1, hmod, hdiv, Nat.mul_add_div hC (q + 1) (r - 1),
        Nat.div_eq_of_lt (by omega : r - 1 < C)]
    simp [hr0, Nat.mod_eq_of_lt hrC, h]

/-- Concatenating the first `k` sequential chunks yields the first `k * C` bytes. -/
theorem flatten_chunkData {α : Type} (data : List α) (C k : Nat) :
    ((List.range k).map fun i => UploadService.chunkData data C i).flatten
      = data.take (k * C) := by
  induction k with
  | zero => simp
  | succ k ih =>
      rw [List.range_succ, List.map_append, List.flatten_append, ih]
      simp only [List.map_cons, List.map_nil, List.flatten_cons, List.flatten_nil,
        List.append_nil]
      rw [Nat.succ_mul, List.take_add]
      rfl

/-- A suffix-keyed list built over `List.range` is already in ascending suffix
order, so the merge sort leaves it unchanged. -/
theorem sortParts_range_map {α : Type} (n : Nat) (g : Nat → List α) :
    DownloadService.sortParts ((List.range n).map fun i => (i, g i))
      = (List.range n).map fun i => (i, g i) := by
  apply List.Sorted.insertionSort_eq
  exact (List.pairwise_lt_range n).map _ (fun a b h => Nat.le_of_lt h)

/-! ## C1 -/

/-- C1: for every source file and every chunk size `C > 0` (and in particular
for all the sizes `N ∈ {0, 1, C-1, C, C+1, 10C+7}` named by the claim),
splitting the file into suffix-numbered parts and concatenating the parts in
ascending order of the integer suffix — the order `merge_files` produces with
its sort — reproduces the original byte sequence exactly.  The hypothesis `hw`
says every chunk write succeeded. -/
theorem split_then_merge_roundTrip {α : Type} (data : List α) (C : Nat)
    (writeOk : Nat → Bool) (hC : 0 < C) (hw : ∀ i, writeOk i = true) :
    DownloadService.mergeConcat (UploadService.split_file data C writeOk).1 = data := by
  unfold UploadService.split_file DownloadService.mergeConcat
  simp only [hw, if_true]
  rw [sortParts_range_map, List.map_map]
  have e : (Prod.snd ∘ fun i => (i, UploadService.chunkData data C i))
      = fun i => UploadService.chunkData data C i := rfl
  rw [e, flatten_chunkData]
  exact List.take_of_length_le (numChunks_mul_ge data.length C hC)

/-- Witness for C1: a 5-byte file with chunk size 2 (three parts) round-trips. -/
theorem split_then_merge_roundTrip_witness :
    0 < 2 ∧ DownloadService.mergeConcat
      (UploadService.split_file ([3, 1, 4, 1, 5] : List Nat) 2 (fun _ => true)).1
      = [3, 1, 4, 1, 5] :=
  ⟨by decide,
   split_then_merge_roundTrip [3, 1, 4, 1, 5] 2 (fun _ => true) (by decide)
     (fun _ => rfl)⟩

/-! ## C3 -/

/-- C3 counterexample: for a 3-byte file split with chunk size 2 every write
succeeds, yet the value `split_file` returns is the boolean `True`
(numerically `1` in Python), not the number `2` of parts whose write
succeeded — `split_file` returns a success flag, not a count. -/
theorem split_file_returns_flag_not_count :
    UploadService.pyBoolToNat
        (UploadService.split_file ([0, 1, 2] : List Nat) 2 (fun _ => true)).2.2
      ≠ (UploadService.split_file ([0, 1, 2] : List Nat) 2 (fun _ => true)).2.1 := by
  decide

/-- C3 (amended): for every source file of `N` bytes and chunk size `C > 0`,
`split_file` produces exactly `ceil(N/C)` part files (0 parts when `N = 0`),
and returns the boolean `chunks_saved == num_chunks` — `True` exactly when the
number of parts whose write succeeded equals the produced part count, rather
than that number itself. -/
theorem split_file_partCount {α : Type} (data : List α) (C : Nat)
    (writeOk : Nat → Bool) (hC : 0 < C) :
    (UploadService.split_file data C writeOk).1.length = (data.length + C - 1) / C
    ∧ (data.length = 0 → (UploadService.split_file data C writeOk).1 = [])
    ∧ ((UploadService.split_file data C writeOk).2.2 = true ↔
        (UploadService.split_file data C writeOk).2.1
          = (UploadService.split_file data C writeOk).1.length) := by
  refine ⟨?_, ?_, ?_⟩
  · simp [UploadService.split_file, numChunks_eq_ceil data.length C hC]
  · intro h
    simp [UploadService.split_file, h, UploadService.numChunks]
  · simp [UploadService.split_file]

/-- Witness for C3 (amended): 3 bytes with chunk size 2 give `ceil(3/2) = 2`
parts. -/
theorem split_file_partCount_witness :
    0 < 2 ∧ (UploadService.split_file ([0, 1, 2] : List Nat) 2 (fun _ => true)).1.length
      = (3 + 2 - 1) / 2 :=
  ⟨by decide, (split_file_partCount [0, 1, 2] 2 (fun _ => true) (by decide)).1⟩

/-! ## C2 -/

/-- `sentParts` distributes over concatenation of event lists. -/
theorem sentParts_append (a b : List UploadService.UpEvent) :
    UploadService.sentParts (a ++ b)
      = UploadService.sentParts a ++ UploadService.sentParts b := by
  induction a with
  | nil => rfl
  | cons e rest ih =>
      cases e <;> simp [UploadService.sentParts, ih]

/-- The upload loop sends exactly the listed files, in listing order, whatever
the progress counters are. -/
theorem sentParts_upload_loop (sizes : String → Nat) (listing : List String)
    (c u : Nat) :
    UploadService.sentParts (UploadService.upload_loop sizes listing c u) = listing := by
  induction listing generalizing c u with
  | nil => rfl
  | cons f rest ih =>
      simp [UploadService.upload_loop, UploadService.sentParts, ih]

/-- C2 counterexample: `upload_files` iterates `os.listdir` of the part
directory, whose order is arbitrary.  With the two part files of a two-part
upload listed as `["f_1", "f_0"]` — a legitimate directory listing of the set
`{f_0, f_1}` — the part with suffix 1 is transmitted before the part with
suffix 0, so the transmitted sequence is not in ascending suffix order: the
claim fails for the pair of part indices `(0, 1)`. -/
theorem upload_order_counterexample :
    UploadService.sentParts
        (UploadService.upload_files (some []) (fun _ => 26214400)
          ["f_1", "f_0"] "f").2 = ["f_1", "f_0"]
    ∧ ¬ List.Pairwise (fun a b => partSuffix a < partSuffix b)
        (UploadService.sentParts
          (UploadService.upload_files (some []) (fun _ => 26214400)
            ["f_1", "f_0"] "f").2) := by
  decide

/-- C2 (amended): during an upload that passes the duplicate-name check, the
part files are transmitted exactly once each, in the order of the directory
listing of the part directory — an order the OS does not guarantee to be
ascending in the sequence index. -/
theorem upload_sends_listing_order (categoryChannels : Option (List String))
    (sizes : String → Nat) (listing : List String) (file_name : String)
    (h : (categoryChannels.getD []).contains
        (UploadService.normalizeChannelName file_name) = false) :
    UploadService.sentParts
        (UploadService.upload_files categoryChannels sizes listing file_name).2
      = listing := by
  unfold UploadService.upload_files
  cases categoryChannels with
  | none =>
      simp only [Option.getD_none] at h
      simp [h, sentParts_append, sentParts_upload_loop, UploadService.sentParts]
  | some chans =>
      simp only [Option.getD_some] at h
      have h' : UploadService.normalizeChannelName file_name ∉ chans := by
        simpa using h
      simp [h', sentParts_append, sentParts_upload_loop, UploadService.sentParts]

/-- Witness for C2 (amended): a two-part upload into a category whose only
channel has a different name sends exactly the listed parts in listing order. -/
theorem upload_sends_listing_order_witness :
    ((some ["other"] : Option (List String)).getD []).contains
        (UploadService.normalizeChannelName "Report") = false
    ∧ UploadService.sentParts
        (UploadService.upload_files (some ["other"]) (fun _ => 26214400)
          ["report_0", "report_1"] "Report").2 = ["report_0", "report_1"] :=
  ⟨by decide,
   upload_sends_listing_order (some ["other"]) (fun _ => 26214400)
     ["report_0", "report_1"] "Report" (by decide)⟩

/-! ## C5 -/

/-- C5: when the normalised container name of the upload already names a live
channel of the category, `upload_files` stops with the `"File already exists"`
error, and its Discord/database effect trace is empty: no part was sent, no
channel was created, and no record was inserted or removed — the existing
record and container are untouched. -/
theorem upload_duplicate_aborts (chans : List String) (sizes : String → Nat)
    (listing : List String) (file_name : String)
    (h : chans.contains (UploadService.normalizeChannelName file_name) = true) :
    UploadService.upload_files (some chans) sizes listing file_name
      = (UploadService.UploadResult.fileAlreadyExists, []) := by
  have h' : UploadService.normalizeChannelName file_name ∈ chans := by
    simpa using h
  unfold UploadService.upload_files
  simp [h']

/-- Witness for C5: uploading `"My File!"` when a channel `"myfile"` (its
normalised name) already exists aborts with no effects. -/
theorem upload_duplicate_aborts_witness :
    (["myfile"] : List String).contains
        (UploadService.normalizeChannelName "My File!") = true
    ∧ UploadService.upload_files (some ["myfile"]) (fun _ => 26214400)
        ["My File!_0"] "My File!"
      = (UploadService.UploadResult.fileAlreadyExists, []) :=
  ⟨by decide,
   upload_duplicate_aborts ["myfile"] (fun _ => 26214400) ["My File!_0"] "My File!"
     (by decide)⟩

/-! ## C4 -/

/-- C4: `get_file_channel_id` tries, in order: (1) a numeric-id lookup when the
token is all decimal digits; (2) otherwise or on a miss, a basename lookup
after stripping path components and extension; (3) the channel-name lookup
inside the (possibly freshly created, hence empty) category, confirmed against
the metadata index.  The first hit wins, and the result is `none` exactly when
all three steps miss.  In particular, on `demoDB` — a record with
`file_id = 7` on channel 500 — the token `"7"` resolves to 500 through the id
step even though a channel literally named `"7"` exists whose confirmed
channel-name lookup would give 600. -/
theorem resolver_precedence (db : List SavedFile)
    (category : Option (List GuildChannel)) (file : String) :
    (∀ c, (if pyIsdigit file then LocalDBManager.find_by_id db (strVal file)
        else none) = some c →
      SearchService.get_file_channel_id db category file = some c)
  ∧ ((if pyIsdigit file then LocalDBManager.find_by_id db (strVal file)
        else none) = none →
      ∀ c, LocalDBManager.find_by_filename db (stripToken file) = some c →
        SearchService.get_file_channel_id db category file = some c)
  ∧ ((if pyIsdigit file then LocalDBManager.find_by_id db (strVal file)
        else none) = none →
      LocalDBManager.find_by_filename db (stripToken file) = none →
      SearchService.get_file_channel_id db category file
        = SearchService.channelNameStep db category file)
  ∧ (SearchService.get_file_channel_id db category file = none ↔
      (if pyIsdigit file then LocalDBManager.find_by_id db (strVal file)
        else none) = none
      ∧ LocalDBManager.find_by_filename db (stripToken file) = none
      ∧ SearchService.channelNameStep db category file = none)
  ∧ SearchService.get_file_channel_id demoDB (some demoChannels) "7" = some 500
  ∧ SearchService.channelNameStep demoDB (some demoChannels) "7" = some 600 := by
  unfold SearchService.get_file_channel_id SearchService.channelNameStep
  refine ⟨?_, ?_, ?_, ?_, by decide, by decide⟩
  · intro c h
    rw [h]
  · intro h1 c h2
    rw [h1, h2]
  · intro h1 h2
    rw [h1, h2]
  · constructor
    · intro h
      cases hs1 : (if pyIsdigit file then LocalDBManager.find_by_id db (strVal file)
          else none) with
      | some c => rw [hs1] at h; exact absurd h (by simp)
      | none =>
          rw [hs1] at h
          cases hs2 : LocalDBManager.find_by_filename db (stripToken file) with
          | some c => rw [hs2] at h; exact absurd h (by simp)
          | none => rw [hs2] at h; exact ⟨rfl, rfl, h⟩
    · intro ⟨h1, h2, h3⟩
      rw [h1, h2, h3]

/-- Witness for C4: on `demoDB`, the digit token `"7"` satisfies the id step,
and the resolver returns its channel 500. -/
theorem resolver_precedence_witness :
    (if pyIsdigit "7" then LocalDBManager.find_by_id demoDB (strVal "7")
      else none) = some 500
    ∧ SearchService.get_file_channel_id demoDB (some demoChannels) "7" = some 500 :=
  ⟨by decide, (resolver_precedence demoDB (some demoChannels) "7").1 500 (by decide)⟩

/-! ## C6 -/

/-- C6: behaviour of every MetadataIndex lookup on a missing record.  The three
`find_by` lookups return `None` in both backends, and the local name lookups
return the string `"No file found"` — but the remote
`find_name_by_channel_id` and `find_fullname_by_channel_id` call
`result.get(...)` on the `None` that `find_one` returned and raise
`AttributeError` instead of returning a not-found value, contradicting their
own docstrings and the claim. -/
theorem lookup_missing_record_behavior :
    LocalDBManager.find_by_id [] 42 = none
    ∧ LocalDBManager.find_by_filename [] "report" = none
    ∧ LocalDBManager.find_by_channel_id [] 42 = none
    ∧ LocalDBManager.find_name_by_channel_id [] 42 = "No file found"
    ∧ LocalDBManager.find_fullname_by_channel_id [] 42 = "No file found"
    ∧ CloudDBManager.find_by_id [] 42 = none
    ∧ CloudDBManager.find_by_filename [] "report" = none
    ∧ CloudDBManager.find_by_channel_id [] 42 = none
    ∧ CloudDBManager.find_name_by_channel_id [] 42
        = Except.error PyError.attributeError
    ∧ CloudDBManager.find_fullname_by_channel_id [] 42
        = Except.error PyError.attributeError := by
  decide

/-! ## C7 -/

/-- C7: on confirmation the channel is removed first and the metadata record
second (the event order of `okbtn_callback`); success is reported exactly when
the database deletion found a record (otherwise the red
`"No file with channel_id=... found"` inconsistency embed is shown); a
reported success really removed one record, a reported miss changed nothing;
and on decline (`cancelbtn_callback`) neither the channels nor the database
change and no destructive call is made. -/
theorem delete_confirm_pairing (channels : List Nat) (db : List SavedFile)
    (cid : Nat) :
    (DeleteService.okbtn_callback channels db cid).events
      = [DeleteService.DelEvent.channelDelete cid, DeleteService.DelEvent.dbDelete cid]
  ∧ ((DeleteService.okbtn_callback channels db cid).success = true ↔
      (db.find? (fun f => f.channel_id == cid)).isSome)
  ∧ ((DeleteService.okbtn_callback channels db cid).success = true →
      (DeleteService.okbtn_callback channels db cid).db.length + 1 = db.length)
  ∧ ((DeleteService.okbtn_callback channels db cid).success = false →
      (DeleteService.okbtn_callback channels db cid).db = db)
  ∧ (DeleteService.cancelbtn_callback channels db).events = []
  ∧ (DeleteService.cancelbtn_callback channels db).channels = channels
  ∧ (DeleteService.cancelbtn_callback channels db).db = db := by
  refine ⟨rfl, ?_, ?_, ?_, rfl, rfl, rfl⟩
  · cases h : db.find? (fun f => f.channel_id == cid) with
    | some f =>
        simp [DeleteService.okbtn_callback, LocalDBManager.delete_by_channel_id, h]
    | none =>
        simp [DeleteService.okbtn_callback, LocalDBManager.delete_by_channel_id, h]
  · intro hs
    cases h : db.find? (fun f => f.channel_id == cid) with
    | some f =>
        have hmem : f ∈ db := List.mem_of_find?_eq_some h
        have hp := List.find?_some h
        simp only [DeleteService.okbtn_callback, LocalDBManager.delete_by_channel_id, h]
        exact List.length_eraseP_add_one hmem hp
    | none =>
        simp [DeleteService.okbtn_callback, LocalDBManager.delete_by_channel_id, h] at hs
  · intro hs
    cases h : db.find? (fun f => f.channel_id == cid) with
    | some f =>
        simp [DeleteService.okbtn_callback, LocalDBManager.delete_by_channel_id, h] at hs
    | none =>
        simp [DeleteService.okbtn_callback, LocalDBManager.delete_by_channel_id, h]

/-- Witness for C7: confirming deletion of channel 500 on `demoDB` (which holds
a record for it) reports success and removes exactly one record. -/
theorem delete_confirm_pairing_witness :
    (DeleteService.okbtn_callback [500] demoDB 500).success = true
    ∧ (DeleteService.okbtn_callback [500] demoDB 500).db.length + 1 = demoDB.length :=
  ⟨by decide, (delete_confirm_pairing [500] demoDB 500).2.2.1 (by decide)⟩

/-! ## C8 -/

/-- The seed of a `max` fold bounds the result from below. -/
theorem init_le_foldl_max (l : List Nat) (a : Nat) : a ≤ l.foldl max a := by
  induction l generalizing a with
  | nil => exact Nat.le_refl a
  | cons b t ih => exact Nat.le_trans (Nat.le_max_left a b) (ih (max a b))

/-- Every member of a list is bounded by the `max` fold over it. -/
theorem mem_le_foldl_max (l : List Nat) (a x : Nat) (hx : x ∈ l) :
    x ≤ l.foldl max a := by
  induction l generalizing a with
  | nil => cases hx
  | cons b t ih =>
      rcases List.mem_cons.mp hx with h | h
      · subst h
        exact Nat.le_trans (Nat.le_max_right a x) (init_le_foldl_max t (max a x))
      · exact ih (max a b) h

/-- C8 counterexample: in local mode, after inserting two records (assigned
`file_id` 1 and 2), deleting the record holding the largest id 2 (channel 600)
and inserting again, the `max(file_id)+1` rule assigns `file_id` 2 a second
time — to a different record (channel 700).  The object id 2 is reused, so the
claim fails for this insert/delete sequence. -/
theorem local_id_reuse_counterexample :
    reuseDB2 = [{ file_id := 1, user_id := 1, channel_id := 500, file_name := "a",
                  file_size := "1.00 KB", file_type := "txt", num_files := none },
                { file_id := 2, user_id := 1, channel_id := 600, file_name := "b",
                  file_size := "1.00 KB", file_type := "txt", num_files := none }]
    ∧ reuseDB4 = [{ file_id := 1, user_id := 1, channel_id := 500, file_name := "a",
                    file_size := "1.00 KB", file_type := "txt", num_files := none },
                  { file_id := 2, user_id := 1, channel_id := 700, file_name := "c",
                    file_size := "1.00 KB", file_type := "txt", num_files := none }] := by
  decide

/-- C8 (amended): each newly assigned object id is strictly greater than every
object id *currently stored*.  In remote mode the counter only grows, so under
the counter invariant (every stored id is at most the counter) ids are in fact
never reused across any insert/delete sequence; in local mode the id is
`max(live ids) + 1`, which can re-assign an id whose record was deleted while
it held the maximum — reuse is possible there. -/
theorem object_id_assignment (db : List SavedFile) (counter : Nat)
    (coll : List CloudDoc) (uid cid : Nat) (name size ftype : String)
    (hinv : ∀ d ∈ coll, d.file_id ≤ counter) :
    (∃ r, LocalDBManager.insert_file db uid cid name size ftype = db ++ [r]
        ∧ ∀ f ∈ db, f.file_id < r.file_id)
  ∧ (∃ d, CloudDBManager.insert_file counter coll uid cid name size ftype
        = (counter + 1, coll ++ [d])
      ∧ d.file_id = counter + 1
      ∧ (∀ e ∈ coll, e.file_id < d.file_id)
      ∧ ∀ e ∈ coll ++ [d], e.file_id ≤ counter + 1) := by
  constructor
  · refine ⟨_, rfl, ?_⟩
    intro f hf
    have hm : f.file_id ∈ db.map (·.file_id) := List.mem_map_of_mem _ hf
    have hle : f.file_id ≤ (db.map (·.file_id)).foldl max 0 :=
      mem_le_foldl_max _ 0 _ hm
    exact Nat.lt_succ_of_le hle
  · refine ⟨_, rfl, rfl, ?_, ?_⟩
    · intro e he
      exact Nat.lt_succ_of_le (hinv e he)
    · intro e he
      rcases List.mem_append.mp he with h | h
      · exact Nat.le_trans (hinv e h) (Nat.le_succ counter)
      · rcases List.mem_singleton.mp h with rfl
        exact Nat.le_refl _

/-- Witness for C8 (amended): inserting into `reuseDB3` (ids `{1}` live) and
into an empty remote collection with counter 5. -/
theorem object_id_assignment_witness :
    (∀ d ∈ ([] : List CloudDoc), d.file_id ≤ 5)
    ∧ ((∃ r, LocalDBManager.insert_file reuseDB3 1 700 "c" "1.00 KB" "txt"
          = reuseDB3 ++ [r] ∧ ∀ f ∈ reuseDB3, f.file_id < r.file_id)
      ∧ ∃ d, CloudDBManager.insert_file 5 [] 1 700 "c" "1.00 KB" "txt" = (6, [] ++ [d])
          ∧ d.file_id = 6 ∧ (∀ e ∈ ([] : List CloudDoc), e.file_id < d.file_id)
          ∧ ∀ e ∈ ([] : List CloudDoc) ++ [d], e.file_id ≤ 6) :=
  ⟨by simp,
   object_id_assignment reuseDB3 5 [] 1 700 "c" "1.00 KB" "txt" (by simp)⟩

/-! ## C9 -/

/-- C9: `download_files` evaluates `convert_to_bytes` on the stored size label
before any part is fetched, so the label *is* used for arithmetic and the
download outcome depends on it.  `demoRecKB` differs from `demoRecMB` only in
its `file_size` label; with the label `"16.00 MB"` the download succeeds and
saves the history's part, while with `"16.00 KB"` — the very label
`convert_size` produces for a 16384-byte file — `float("16.00 K")` raises
`ValueError` and the download fails before saving anything.  Two records
differing only in `size_label` thus produce different success-or-failure
outcomes, not merely different progress text. -/
theorem download_outcome_depends_on_size_label :
    demoRecKB = { demoRecMB with file_size := "16.00 KB" }
    ∧ DownloadService.download_files demoRecMB demoHistory
        = Except.ok [("report_0", [1, 2, 3])]
    ∧ DownloadService.download_files demoRecKB demoHistory
        = Except.error PyError.valueError := by
  decide

/-! ## C10 -/

/-- C10: when the output write of `merge_files` raises `OSError` (disk full,
permission denied) on a non-empty part set, the error is logged — but the
`except` branch does not return, so the function goes on to show the
`"Finished Download"` embed, remove the per-container working directory with
`shutil.rmtree` (deleting every already-downloaded part), and return `True`.
The parts are *not* left in place for manual recovery, and the failure is even
reported as a success. -/
theorem merge_oserror_removes_parts :
    (DownloadService.merge_files [(0, [7]), (1, [9])] true).errorLogged = true
    ∧ (DownloadService.merge_files [(0, [7]), (1, [9])] true).output = none
    ∧ (DownloadService.merge_files [(0, [7]), (1, [9])] true).dirRemoved = true
    ∧ (DownloadService.merge_files [(0, [7]), (1, [9])] true).result = true
    ∧ (DownloadService.merge_files [(0, [7]), (1, [9])] true).finishedShown = true := by
  decide
